import Mathlib

/-!
Shallow embedding of the AWS JSON 1.0 streaming protocol codec from
`src.gen/@amzn/amazon-q-developer-streaming-client/src/protocols/Aws_json1_0.ts`,
with theorems checking the natural-language specification against it.

Conventions:
- TypeScript objects whose fields are all optional become Lean structures of
  `Option` fields; `undefined`/absent is `none`.
- Wire-level JSON values are the inductive `Json` below; TypeScript `null` is
  `Json.null`.
- Header bags and JSON object fields are association lists looked up with
  `alookup`.
- Thrown exceptions become the `Except.error` side of `Except`.
- External collaborators (the `@aws-sdk/core` error-code loader, the
  `@smithy` event-stream marshaller loop and `take` helper) are not part of
  this repository; their definitions are modelled from the spec and marked
  `Modelled from the spec:` in their doc comments.  Everything else is a
  direct translation of the source file.
-/

namespace AwsJson10

/-- Wire-level JSON values (the payloads this codec reads and writes). -/
inductive Json where
  | null : Json
  | bool (b : Bool) : Json
  | num (n : Int) : Json
  | str (s : String) : Json
  | arr (elems : List Json) : Json
  | obj (fields : List (String × Json)) : Json
deriving Repr, Inhabited

/-- Association-list lookup used for JSON object fields and header bags
(first binding wins, as in a JavaScript object/header bag). -/
def alookup {α : Type} (k : String) : List (String × α) → Option α
  | [] => none
  | (k2, v) :: rest => if k2 = k then some v else alookup k rest

/-- Returns `true` exactly on the JSON `null` value (the `!= null` checks in the
source treat absent and `null` alike; absence is `Option.none` here). -/
def Json.isNull : Json → Bool
  | .null => true
  | _ => false

/-- Field access `j[k]` on a JSON value: a lookup when `j` is an object,
`undefined` (`none`) otherwise. -/
def Json.lookupField (j : Json) (k : String) : Option Json :=
  match j with
  | .obj fields => alookup k fields
  | _ => none

/-- Element list of a JSON value: the elements when it is an array,
empty otherwise (mirrors the `(output || [])` guards in the source). -/
def Json.arrElems : Json → List Json
  | .arr elems => elems
  | _ => []

/-- Raw bytes (binary blob contents). -/
def Bytes : Type := List Nat
deriving instance DecidableEq, Repr for Bytes

/-- HTTP-style header bag. -/
def Headers : Type := List (String × String)
deriving instance DecidableEq, Repr for Headers

/-- The `__ResponseMetadata` from `@smithy/types` as populated by
`deserializeMetadata` (source lines 1140-1145): status code plus the
request-identification headers.  `httpStatusCode` is optional in the
TypeScript type; in-stream exception decoding reaches `deserializeMetadata`
with an event message that has no status code. -/
structure ResponseMetadata where
  httpStatusCode : Option Nat
  requestId : Option String
  extendedRequestId : Option String
  cfId : Option String
deriving Repr, DecidableEq

/-- The duck-typed value the deserializers pass around after body parsing:
`parsedOutput = { ...output, body: await parseErrorBody(output.body, context) }`.
`statusCode` is `none` when the value originated from an event-stream message
rather than an HTTP response. -/
structure ParsedOutput where
  statusCode : Option Nat
  headers : Headers
  body : Json
deriving Repr

/-- The `deserializeMetadata` (source lines 1140-1145): status code copied
through; `requestId` from the first present of three headers (the `??`
chain); `extendedRequestId` and `cfId` from their single headers. -/
def deserializeMetadata (output : ParsedOutput) : ResponseMetadata :=
  { httpStatusCode := output.statusCode
    requestId :=
      (alookup "x-amzn-requestid" output.headers).orElse fun _ =>
        (alookup "x-amzn-request-id" output.headers).orElse fun _ =>
          alookup "x-amz-request-id" output.headers
    extendedRequestId := alookup "x-amz-id-2" output.headers
    cfId := alookup "x-amz-cf-id" output.headers }

/-- The eight service exception classes imported from `models_0` and
constructed by the `de_*ExceptionRes` functions (source lines 213-339). -/
inductive ExceptionKind where
  | accessDenied
  | internalServer
  | throttling
  | validation
  | conflict
  | dryRunOperation
  | resourceNotFound
  | serviceQuotaExceeded
deriving Repr, DecidableEq

/-- Wire error-code for each exception class, exactly as written in the
bare `case` labels of the `de_CommandError` switch (source lines 178-202). -/
def bareName : ExceptionKind → String
  | .accessDenied => "AccessDeniedException"
  | .internalServer => "InternalServerException"
  | .throttling => "ThrottlingException"
  | .validation => "ValidationException"
  | .conflict => "ConflictException"
  | .dryRunOperation => "DryRunOperationException"
  | .resourceNotFound => "ResourceNotFoundException"
  | .serviceQuotaExceeded => "ServiceQuotaExceededException"

/-- Namespace-qualified wire error-code for each exception class, exactly as
written in the qualified `case` labels of the same switch. -/
def qualName : ExceptionKind → String
  | .accessDenied => "com.amazon.aws.codewhisperer#AccessDeniedException"
  | .internalServer => "com.amazon.aws.codewhisperer#InternalServerException"
  | .throttling => "com.amazon.aws.codewhisperer#ThrottlingException"
  | .validation => "com.amazon.aws.codewhisperer#ValidationException"
  | .conflict => "com.amazon.aws.codewhisperer#ConflictException"
  | .dryRunOperation => "com.amazon.aws.codewhisperer#DryRunOperationException"
  | .resourceNotFound => "com.amazon.aws.codewhisperer#ResourceNotFoundException"
  | .serviceQuotaExceeded => "com.amazon.aws.codewhisperer#ServiceQuotaExceededException"

/-- One list of all eight exception classes, in switch order. -/
def allExceptionKinds : List ExceptionKind :=
  [.accessDenied, .internalServer, .throttling, .validation,
   .conflict, .dryRunOperation, .resourceNotFound, .serviceQuotaExceeded]

/-- Modelled from the spec: `_json` from `@smithy/smithy-client` (not part of
this repository) — the opaque "document" codec, which "passes opaque
('document') values through untouched" (spec section 2, item 1). -/
def _json (v : Json) : Json := v

/-- A decoded typed service exception: which of the eight classes was
constructed, the `$metadata` attached at construction, and the decoded body
fields spread into it (`{ $metadata: deserializeMetadata(parsedOutput),
..._json(body) }`, then `__decorateServiceException`). -/
structure ServiceException where
  kind : ExceptionKind
  metadata : ResponseMetadata
  fields : Json
deriving Repr

/-- Constructor common to the eight `de_*ExceptionRes` functions
(source lines 213-339), parameterised by the exception class. -/
def de_ExceptionRes (kind : ExceptionKind) (parsedOutput : ParsedOutput) :
    ServiceException :=
  { kind := kind
    metadata := deserializeMetadata parsedOutput
    fields := _json parsedOutput.body }

/-- The `de_AccessDeniedExceptionRes` (source lines 216-227). -/
def de_AccessDeniedExceptionRes : ParsedOutput → ServiceException :=
  de_ExceptionRes .accessDenied

/-- The `de_ConflictExceptionRes` (source lines 232-243). -/
def de_ConflictExceptionRes : ParsedOutput → ServiceException :=
  de_ExceptionRes .conflict

/-- The `de_DryRunOperationExceptionRes` (source lines 248-259). -/
def de_DryRunOperationExceptionRes : ParsedOutput → ServiceException :=
  de_ExceptionRes .dryRunOperation

/-- The `de_InternalServerExceptionRes` (source lines 264-275). -/
def de_InternalServerExceptionRes : ParsedOutput → ServiceException :=
  de_ExceptionRes .internalServer

/-- The `de_ResourceNotFoundExceptionRes` (source lines 280-291). -/
def de_ResourceNotFoundExceptionRes : ParsedOutput → ServiceException :=
  de_ExceptionRes .resourceNotFound

/-- The `de_ServiceQuotaExceededExceptionRes` (source lines 296-307). -/
def de_ServiceQuotaExceededExceptionRes : ParsedOutput → ServiceException :=
  de_ExceptionRes .serviceQuotaExceeded

/-- The `de_ThrottlingExceptionRes` (source lines 312-323). -/
def de_ThrottlingExceptionRes : ParsedOutput → ServiceException :=
  de_ExceptionRes .throttling

/-- The `de_ValidationExceptionRes` (source lines 328-339). -/
def de_ValidationExceptionRes : ParsedOutput → ServiceException :=
  de_ExceptionRes .validation

/-- Outcome of the top-level error dispatcher: a typed exception thrown by
one of the `de_*ExceptionRes` branches, or the generic default exception
produced by `throwDefaultError` (`withBaseException(__BaseException)`),
which carries the raw error code and the parsed body. -/
inductive CommandError where
  | typed (e : ServiceException)
  | defaultErr (errorCode : Option String) (parsedBody : Json)
      (metadata : ResponseMetadata)
deriving Repr

/-- Modelled from the spec: normalization of a wire error code —
"normalize by stripping an optional fully-qualified namespace prefix (text
before and including the last `#`)" (spec section 4.5).  Performed inside
`loadRestJsonErrorCode` of `@aws-sdk/core`, which is not part of this
repository.  The text after the last hash is the reverse of the longest
hash-free suffix of the reversed character list. -/
def sanitizeErrorCode (raw : String) : String :=
  String.mk ((raw.data.reverse.takeWhile fun c => c != '#').reverse)

/-- Modelled from the spec: `loadRestJsonErrorCode` of `@aws-sdk/core` (not
part of this repository) — "prefer a response header naming the error code;
fall back to a JSON body field (`__type` or equivalent)" (spec section 6),
normalizing the result with `sanitizeErrorCode`.  Returns `none` when
neither source names a code. -/
def loadRestJsonErrorCode (headers : Headers) (body : Json) : Option String :=
  match alookup "x-amzn-errortype" headers with
  | some v => some (sanitizeErrorCode v)
  | none =>
    match body.lookupField "__type" with
    | some (.str s) => some (sanitizeErrorCode s)
    | _ => none

/-- The `switch (errorCode)` block of `de_CommandError` (source lines
178-210), factored out with the already-extracted error code as an
argument.  Each pair of `case` labels (bare and namespace-qualified) throws
the corresponding typed exception; the `default` arm calls
`throwDefaultError({ output, parsedBody, errorCode })`. -/
def dispatchErrorCode (errorCode : Option String) (parsedOutput : ParsedOutput) :
    CommandError :=
  match errorCode with
  | some c =>
    if c = "AccessDeniedException" ∨
        c = "com.amazon.aws.codewhisperer#AccessDeniedException" then
      .typed (de_AccessDeniedExceptionRes parsedOutput)
    else if c = "InternalServerException" ∨
        c = "com.amazon.aws.codewhisperer#InternalServerException" then
      .typed (de_InternalServerExceptionRes parsedOutput)
    else if c = "ThrottlingException" ∨
        c = "com.amazon.aws.codewhisperer#ThrottlingException" then
      .typed (de_ThrottlingExceptionRes parsedOutput)
    else if c = "ValidationException" ∨
        c = "com.amazon.aws.codewhisperer#ValidationException" then
      .typed (de_ValidationExceptionRes parsedOutput)
    else if c = "ConflictException" ∨
        c = "com.amazon.aws.codewhisperer#ConflictException" then
      .typed (de_ConflictExceptionRes parsedOutput)
    else if c = "DryRunOperationException" ∨
        c = "com.amazon.aws.codewhisperer#DryRunOperationException" then
      .typed (de_DryRunOperationExceptionRes parsedOutput)
    else if c = "ResourceNotFoundException" ∨
        c = "com.amazon.aws.codewhisperer#ResourceNotFoundException" then
      .typed (de_ResourceNotFoundExceptionRes parsedOutput)
    else if c = "ServiceQuotaExceededException" ∨
        c = "com.amazon.aws.codewhisperer#ServiceQuotaExceededException" then
      .typed (de_ServiceQuotaExceededExceptionRes parsedOutput)
    else
      .defaultErr (some c) parsedOutput.body (deserializeMetadata parsedOutput)
  | none => .defaultErr none parsedOutput.body (deserializeMetadata parsedOutput)

/-- One discrete named frame of the multiplexed event stream, as the
external framing layer presents it to this codec: the event name (from the
`:event-type` header, used as the single key of the object handed to the
per-frame deserializer closure), the message headers, and the payload
already parsed from bytes to JSON (`parseBody` is an external collaborator).
-/
structure Frame where
  name : String
  headers : Headers
  body : Json
deriving Repr

/-- The raw streaming response body, as this layer sees it: the sequence of
discrete named frames the external transport produces from the bytes.  The
`output` parameter captured by the `$unknown` fallback of the deserializer
closures is a value of this type. -/
structure StreamBody where
  frames : List Frame
deriving Repr

/-- View of an event-stream message after `parseBody`, as handed to
`de_InternalServerExceptionRes` and friends by the `*_event` wrappers:
`{ ...output, body: await parseBody(output.body, context) }`.  An event
message has no `statusCode`. -/
def frameParsed (f : Frame) : ParsedOutput :=
  { statusCode := none, headers := f.headers, body := f.body }

/-- The `de_InternalServerException_event` (source lines 517-526). -/
def de_InternalServerException_event (f : Frame) : ServiceException :=
  de_InternalServerExceptionRes (frameParsed f)

/-- The `de_ServiceQuotaExceededException_event` (source lines 545-554). -/
def de_ServiceQuotaExceededException_event (f : Frame) : ServiceException :=
  de_ServiceQuotaExceededExceptionRes (frameParsed f)

/-- The `de_ValidationException_event` (source lines 573-582). -/
def de_ValidationException_event (f : Frame) : ServiceException :=
  de_ValidationExceptionRes (frameParsed f)

/-- The simple `de_*Event_event` decoders (source lines 454-572 except the
exception and interaction-component ones): parse the payload and
`Object.assign` the `_json` of it onto a fresh record — i.e. the parsed
payload itself. -/
def de_SimpleEvent_event (f : Frame) : Json :=
  _json f.body

/-- The `__expectString` from `@smithy/smithy-client` applied as a `take`
decode instruction.  Its runtime type assertion is external to this
repository; on the string-typed values this schema carries it returns its
argument, which is how it is modelled here. -/
def expectString (v : Json) : Json := v

/-- The `de_InteractionComponent` (source lines 1038-1056): a field-rule table
of twelve pass-through (`_json`) fields. -/
def de_InteractionComponent (output : Json) : Json :=
  Json.obj
    ((["action", "alert", "infrastructureUpdate", "progress", "resource",
       "resourceList", "section", "step", "suggestions", "taskDetails",
       "taskReference", "text"]).filterMap fun k =>
      match output.lookupField k with
      | some v => if v.isNull then none else some (k, _json v)
      | none => none)

/-- The `de_InteractionComponentEntry` (source lines 1061-1069). -/
def de_InteractionComponentEntry (output : Json) : Json :=
  Json.obj
    ((match output.lookupField "interactionComponent" with
      | some v => if v.isNull then [] else
          [("interactionComponent", de_InteractionComponent v)]
      | none => []) ++
     (match output.lookupField "interactionComponentId" with
      | some v => if v.isNull then [] else
          [("interactionComponentId", expectString v)]
      | none => []))

/-- The `de_InteractionComponentEntryList` (source lines 1074-1082):
`(output || []).filter(e => e != null).map(de_InteractionComponentEntry)`. -/
def de_InteractionComponentEntryList (output : Json) : Json :=
  Json.arr
    (output.arrElems.filterMap fun e =>
      if e.isNull then none else some (de_InteractionComponentEntry e))

/-- The `de_InteractionComponentsEvent` (source lines 1012-1019): field-rule
table with the single `interactionComponentEntries` sub-decoder. -/
def de_InteractionComponentsEvent (output : Json) : Json :=
  Json.obj
    (match output.lookupField "interactionComponentEntries" with
     | some v => if v.isNull then [] else
         [("interactionComponentEntries", de_InteractionComponentEntryList v)]
     | none => [])

/-- The `de_InteractionComponentsEvent_event` (source lines 583-591). -/
def de_InteractionComponentsEvent_event (f : Frame) : Json :=
  de_InteractionComponentsEvent f.body

/-- The `ChatResponseStream` union: one alternative per event name the
`de_ChatResponseStream` closure recognizes (source lines 344-419), the
`error` alternative holding the decoded exception, and the `$unknown`
fallback.  The `$unknown` payload is the closure's captured `output`
argument — the whole raw stream body. -/
inductive ChatResponseStream where
  | messageMetadataEvent (e : Json)
  | assistantResponseEvent (e : Json)
  | dryRunSucceedEvent (e : Json)
  | codeReferenceEvent (e : Json)
  | supplementaryWebLinksEvent (e : Json)
  | followupPromptEvent (e : Json)
  | codeEvent (e : Json)
  | intentsEvent (e : Json)
  | interactionComponentsEvent (e : Json)
  | toolUseEvent (e : Json)
  | citationEvent (e : Json)
  | invalidStateEvent (e : Json)
  | error (e : ServiceException)
  | unknown (raw : StreamBody)
deriving Repr

/-- The per-frame deserializer closure passed to
`context.eventStreamMarshaller.deserialize` by `de_ChatResponseStream`
(source lines 344-419).  The source tests `event["<name>"] != null` on the
single-key object `{ [frame.name]: message }`, which is name equality; the
tests appear here in source order.  The fallback returns
`{$unknown: output}` with `output` the captured whole stream body. -/
def chatStreamDeser (output : StreamBody) (f : Frame) : ChatResponseStream :=
  match f.name with
  | "messageMetadataEvent" => .messageMetadataEvent (de_SimpleEvent_event f)
  | "assistantResponseEvent" => .assistantResponseEvent (de_SimpleEvent_event f)
  | "dryRunSucceedEvent" => .dryRunSucceedEvent (de_SimpleEvent_event f)
  | "codeReferenceEvent" => .codeReferenceEvent (de_SimpleEvent_event f)
  | "supplementaryWebLinksEvent" =>
      .supplementaryWebLinksEvent (de_SimpleEvent_event f)
  | "followupPromptEvent" => .followupPromptEvent (de_SimpleEvent_event f)
  | "codeEvent" => .codeEvent (de_SimpleEvent_event f)
  | "intentsEvent" => .intentsEvent (de_SimpleEvent_event f)
  | "interactionComponentsEvent" =>
      .interactionComponentsEvent (de_InteractionComponentsEvent_event f)
  | "toolUseEvent" => .toolUseEvent (de_SimpleEvent_event f)
  | "citationEvent" => .citationEvent (de_SimpleEvent_event f)
  | "invalidStateEvent" => .invalidStateEvent (de_SimpleEvent_event f)
  | "error" => .error (de_InternalServerException_event f)
  | _ => .unknown output

/-- The event names the `de_ChatResponseStream` decode table recognizes,
in source order (twelve events plus the reserved error-event name). -/
def chatEventNames : List String :=
  ["messageMetadataEvent", "assistantResponseEvent", "dryRunSucceedEvent",
   "codeReferenceEvent", "supplementaryWebLinksEvent", "followupPromptEvent",
   "codeEvent", "intentsEvent", "interactionComponentsEvent", "toolUseEvent",
   "citationEvent", "invalidStateEvent", "error"]

/-- Does a decoded chat-stream item signal the in-stream error? -/
def ChatResponseStream.isError : ChatResponseStream → Bool
  | .error _ => true
  | _ => false

/-- The `GenerateCodeFromCommandsResponseStream` union decoded by
`de_GenerateCodeFromCommandsResponseStream` (source lines 423-453): one
code-chunk alternative, three reserved error-event alternatives, and the
`$unknown` fallback carrying the captured whole stream body. -/
inductive GenerateCodeFromCommandsResponseStream where
  | codeEvent (e : Json)
  | Error (e : ServiceException)
  | QuotaLevelExceededError (e : ServiceException)
  | ValidationError (e : ServiceException)
  | unknown (raw : StreamBody)
deriving Repr

/-- The per-frame deserializer closure of
`de_GenerateCodeFromCommandsResponseStream` (source lines 423-453), name
tests in source order. -/
def genStreamDeser (output : StreamBody) (f : Frame) :
    GenerateCodeFromCommandsResponseStream :=
  match f.name with
  | "codeEvent" => .codeEvent (de_SimpleEvent_event f)
  | "Error" => .Error (de_InternalServerException_event f)
  | "QuotaLevelExceededError" =>
      .QuotaLevelExceededError (de_ServiceQuotaExceededException_event f)
  | "ValidationError" => .ValidationError (de_ValidationException_event f)
  | _ => .unknown output

/-- Does a decoded command-generation stream item signal an in-stream
error? -/
def GenerateCodeFromCommandsResponseStream.isError :
    GenerateCodeFromCommandsResponseStream → Bool
  | .Error _ => true
  | .QuotaLevelExceededError _ => true
  | .ValidationError _ => true
  | _ => false

/-- Modelled from the spec: the pull loop of the external event-stream
marshaller (`context.eventStreamMarshaller.deserialize`, from `@smithy`,
not part of this repository), specialised to the chat stream.  Spec section
4.4: decode each frame in arrival order with the per-frame table; an item
matching the reserved error-event name terminates the sequence after being
yielded; every other item is yielded and iteration continues. -/
def demuxChatGo (output : StreamBody) : List Frame → List ChatResponseStream
  | [] => []
  | f :: rest =>
    let e := chatStreamDeser output f
    if e.isError then [e] else e :: demuxChatGo output rest

/-- The `de_ChatResponseStream` (source lines 344-419) composed with the
spec-modelled marshaller loop: the lazy typed event sequence, materialised
as the list of items a consumer that pulls to the end observes. -/
def de_ChatResponseStream (output : StreamBody) : List ChatResponseStream :=
  demuxChatGo output output.frames

/-- Modelled from the spec: the same marshaller loop specialised to the
command-generation stream, whose reserved error-event names are
per-operation (spec section 9, open question). -/
def demuxGenGo (output : StreamBody) :
    List Frame → List GenerateCodeFromCommandsResponseStream
  | [] => []
  | f :: rest =>
    let e := genStreamDeser output f
    if e.isError then [e] else e :: demuxGenGo output rest

/-- The `de_GenerateCodeFromCommandsResponseStream` (source lines 423-453)
composed with the spec-modelled marshaller loop. -/
def de_GenerateCodeFromCommandsResponseStream (output : StreamBody) :
    List GenerateCodeFromCommandsResponseStream :=
  demuxGenGo output output.frames

/-- An HTTP-style transport response as this codec inspects it.  The two
body fields are the two external views of the same transport body: the
error path parses it as JSON (`parseErrorBody`, external), the success path
hands it to the external framing layer which yields discrete named frames.
-/
structure HttpResponse where
  statusCode : Nat
  headers : Headers
  bodyJson : Json
  bodyStream : StreamBody
deriving Repr

/-- The `parsedOutput = { ...output, body: await parseErrorBody(...) }`
view of an HTTP response built at the top of `de_CommandError`. -/
def HttpResponse.parsed (output : HttpResponse) : ParsedOutput :=
  { statusCode := some output.statusCode
    headers := output.headers
    body := output.bodyJson }

/-- The `de_CommandError` (source lines 169-211): parse the error body, extract
and normalize the wire error code via `loadRestJsonErrorCode`, then run the
`switch` (here `dispatchErrorCode`).  Its TypeScript type is
`Promise<never>`: every branch throws. -/
def de_CommandError (output : HttpResponse) : CommandError :=
  dispatchErrorCode (loadRestJsonErrorCode output.headers output.bodyJson)
    output.parsed

/-- Result record of `de_SendMessageCommand` on a ≤ 299 response:
`{ $metadata, sendMessageResponse }`. -/
structure SendMessageCommandOutput where
  metadata : ResponseMetadata
  sendMessageResponse : List ChatResponseStream
deriving Repr

/-- Result record of `de_GenerateCodeFromCommandsCommand` on a ≤ 299
response: `{ $metadata, generatedCodeFromCommandsResponse }`. -/
structure GenerateCodeFromCommandsCommandOutput where
  metadata : ResponseMetadata
  generatedCodeFromCommandsResponse : List GenerateCodeFromCommandsResponseStream
deriving Repr

/-- The `de_SendMessageCommand` (source lines 151-164): a status code of 300 or
more routes to `de_CommandError`, whose result is thrown; otherwise the
body is handed to `de_ChatResponseStream` and metadata is attached. -/
def de_SendMessageCommand (output : HttpResponse) :
    Except CommandError SendMessageCommandOutput :=
  if output.statusCode ≥ 300 then
    Except.error (de_CommandError output)
  else
    Except.ok
      { metadata := deserializeMetadata output.parsed
        sendMessageResponse := de_ChatResponseStream output.bodyStream }

/-- The `de_GenerateCodeFromCommandsCommand` (source lines 133-146). -/
def de_GenerateCodeFromCommandsCommand (output : HttpResponse) :
    Except CommandError GenerateCodeFromCommandsCommandOutput :=
  if output.statusCode ≥ 300 then
    Except.error (de_CommandError output)
  else
    Except.ok
      { metadata := deserializeMetadata output.parsed
        generatedCodeFromCommandsResponse :=
          de_GenerateCodeFromCommandsResponseStream output.bodyStream }

/-- The resolved endpoint returned by `context.endpoint()`:
`const { hostname, protocol = "https", port, path: basePath }`. -/
structure Endpoint where
  protocol : Option String
  hostname : String
  port : Option Nat
  path : String
deriving Repr, DecidableEq

/-- The slice of `__SerdeContext` this codec consumes: the injected
endpoint resolver and the binary-blob base64 encoder. -/
structure SerdeContext where
  endpoint : Endpoint
  base64Encoder : Bytes → String

/-- A transport-level request as assembled by `buildHttpRpcRequest`.  The
body is the serialized JSON document when one was provided. -/
structure HttpRequest where
  protocol : String
  hostname : String
  port : Option Nat
  method : String
  path : String
  headers : Headers
  body : Option Json
deriving Repr

/-- Does the string end with the separator character?  This is
`basePath.endsWith("/")` — for a one-character suffix, exactly "the last
character is the separator". -/
def endsWithSlash (s : String) : Bool :=
  s.data.getLast? = some '/'

/-- The `buildHttpRpcRequest` (source lines 1151-1174): resolve the endpoint,
fix the method to POST, join `basePath` and `path` (dropping the trailing
separator of `basePath` when it ends with one — `basePath.slice(0, -1)`,
here `dropRight 1`), override the hostname when a resolved one is
supplied, and attach the body only when defined. -/
def buildHttpRpcRequest (context : SerdeContext) (headers : Headers)
    (path : String) (resolvedHostname : Option String) (body : Option Json) :
    HttpRequest :=
  let ep := context.endpoint
  { protocol := ep.protocol.getD "https"
    hostname :=
      match resolvedHostname with
      | some h => h
      | none => ep.hostname
    port := ep.port
    method := "POST"
    path :=
      if endsWithSlash ep.path then ep.path.dropRight 1 ++ path
      else ep.path ++ path
    headers := headers
    body := body }

/-- The `sharedHeaders` (source lines 1175-1178). -/
def sharedHeaders (operation : String) : Headers :=
  [("content-type", "application/x-amz-json-1.0"),
   ("x-amz-target", "AmazonQDeveloperStreamingService." ++ operation)]

/-- Emit one field of a field-rule table: present and non-null values are
written under their key, absent (`undefined`) and `null` values are
dropped.  This is the per-field behaviour of the `take` helper the
serializers apply to each entry of their rule tables. -/
def takeField (k : String) (v : Option Json) : List (String × Json) :=
  match v with
  | some j => if j.isNull then [] else [(k, j)]
  | none => []

/-- The `ImageSource` union (`models_0`): a raw-bytes alternative plus the
`$unknown` member carrying the original `[tag, value]` pair. -/
inductive ImageSource where
  | bytes (b : Bytes)
  | unknown (tag : String) (value : Json)

/-- The `se_ImageSource` (source lines 711-719): `ImageSource.visit` with the
`bytes` arm base64-encoding through `context.base64Encoder`, and the
fallback arm `(name, value) => ({ name: value })` — note the literal key. -/
def se_ImageSource (context : SerdeContext) : ImageSource → Json
  | .bytes value => .obj [("bytes", .str (context.base64Encoder value))]
  | .unknown _ value => .obj [("name", value)]

/-- The `ImageBlock` record (fields from the `se_ImageBlock` rule table). -/
structure ImageBlock where
  format : Option String
  source : Option ImageSource

/-- The `se_ImageBlock` (source lines 686-694). -/
def se_ImageBlock (context : SerdeContext) (input : ImageBlock) : Json :=
  .obj (takeField "format" (input.format.map .str) ++
    takeField "source" (input.source.map (se_ImageSource context)))

/-- The `se_ImageBlocks` (source lines 699-706): drop null entries, map
`se_ImageBlock`.  A typed Lean list has no null entries. -/
def se_ImageBlocks (context : SerdeContext) (input : List ImageBlock) : Json :=
  .arr (input.map (se_ImageBlock context))

/-- The `se_SensitiveDocument` (source lines 740-745): the opaque "document"
encoder, `return input`. -/
def se_SensitiveDocument (_context : SerdeContext) (input : Json) : Json :=
  input

/-- The `ToolUse` record (fields from the `se_ToolUse` rule table). -/
structure ToolUse where
  input : Option Json
  name : Option String
  toolUseId : Option String

/-- The `se_ToolUse` (source lines 869-878): rule table
`{ input: se_SensitiveDocument, name: [], toolUseId: [] }`. -/
def se_ToolUse (context : SerdeContext) (input : ToolUse) : Json :=
  .obj (takeField "input" (input.input.map (se_SensitiveDocument context)) ++
    takeField "name" (input.name.map .str) ++
    takeField "toolUseId" (input.toolUseId.map .str))

/-- The `se_ToolUses` (source lines 883-890). -/
def se_ToolUses (context : SerdeContext) (input : List ToolUse) : Json :=
  .arr (input.map (se_ToolUse context))

/-- The `ToolInputSchema` record (fields from the `se_ToolInputSchema` rule
table). -/
structure ToolInputSchema where
  json : Option Json

/-- The `se_ToolInputSchema` (source lines 779-786). -/
def se_ToolInputSchema (context : SerdeContext) (input : ToolInputSchema) :
    Json :=
  .obj (takeField "json" (input.json.map (se_SensitiveDocument context)))

/-- The `ToolSpecification` record (fields from the `se_ToolSpecification` rule
table). -/
structure ToolSpecification where
  description : Option String
  inputSchema : Option ToolInputSchema
  name : Option String

/-- The `se_ToolSpecification` (source lines 855-864). -/
def se_ToolSpecification (context : SerdeContext) (input : ToolSpecification) :
    Json :=
  .obj (takeField "description" (input.description.map .str) ++
    takeField "inputSchema" (input.inputSchema.map (se_ToolInputSchema context)) ++
    takeField "name" (input.name.map .str))

/-- The `Tool` union: the `toolSpecification` alternative plus `$unknown`. -/
inductive Tool where
  | toolSpecification (v : ToolSpecification)
  | unknown (tag : String) (value : Json)

/-- The `se_Tool` (source lines 766-774): `Tool.visit` with the literal-key
fallback `(name, value) => ({ name: value })`. -/
def se_Tool (context : SerdeContext) : Tool → Json
  | .toolSpecification value =>
      .obj [("toolSpecification", se_ToolSpecification context value)]
  | .unknown _ value => .obj [("name", value)]

/-- The `se_Tools` (source lines 843-850). -/
def se_Tools (context : SerdeContext) (input : List Tool) : Json :=
  .arr (input.map (se_Tool context))

/-- The `ToolResultContentBlock` union: `json` and `text` alternatives plus
`$unknown`. -/
inductive ToolResultContentBlock where
  | json (v : Json)
  | text (s : String)
  | unknown (tag : String) (value : Json)

/-- The `se_ToolResultContentBlock` (source lines 817-826):
`ToolResultContentBlock.visit` with the literal-key fallback. -/
def se_ToolResultContentBlock (context : SerdeContext) :
    ToolResultContentBlock → Json
  | .json value => .obj [("json", se_SensitiveDocument context value)]
  | .text value => .obj [("text", .str value)]
  | .unknown _ value => .obj [("name", value)]

/-- The `se_ToolResultContent` (source lines 805-812). -/
def se_ToolResultContent (context : SerdeContext)
    (input : List ToolResultContentBlock) : Json :=
  .arr (input.map (se_ToolResultContentBlock context))

/-- The `ToolResult` record (fields from the `se_ToolResult` rule table). -/
structure ToolResult where
  content : Option (List ToolResultContentBlock)
  status : Option String
  toolUseId : Option String

/-- The `se_ToolResult` (source lines 791-800). -/
def se_ToolResult (context : SerdeContext) (input : ToolResult) : Json :=
  .obj (takeField "content" (input.content.map (se_ToolResultContent context)) ++
    takeField "status" (input.status.map .str) ++
    takeField "toolUseId" (input.toolUseId.map .str))

/-- The `se_ToolResults` (source lines 831-838). -/
def se_ToolResults (context : SerdeContext) (input : List ToolResult) : Json :=
  .arr (input.map (se_ToolResult context))

/-- The `UserInputMessageContext` record (fields from the
`se_UserInputMessageContext` rule table; the `_json` fields hold opaque
documents). -/
structure UserInputMessageContext where
  additionalContext : Option Json
  appStudioContext : Option Json
  consoleState : Option Json
  diagnostic : Option Json
  editorState : Option Json
  envState : Option Json
  gitState : Option Json
  shellState : Option Json
  toolResults : Option (List ToolResult)
  tools : Option (List Tool)
  userSettings : Option Json

/-- The `se_UserInputMessageContext` (source lines 911-928). -/
def se_UserInputMessageContext (context : SerdeContext)
    (input : UserInputMessageContext) : Json :=
  .obj (takeField "additionalContext" (input.additionalContext.map _json) ++
    takeField "appStudioContext" (input.appStudioContext.map _json) ++
    takeField "consoleState" (input.consoleState.map _json) ++
    takeField "diagnostic" (input.diagnostic.map _json) ++
    takeField "editorState" (input.editorState.map _json) ++
    takeField "envState" (input.envState.map _json) ++
    takeField "gitState" (input.gitState.map _json) ++
    takeField "shellState" (input.shellState.map _json) ++
    takeField "toolResults" (input.toolResults.map (se_ToolResults context)) ++
    takeField "tools" (input.tools.map (se_Tools context)) ++
    takeField "userSettings" (input.userSettings.map _json))

/-- The `UserInputMessage` record (fields from the `se_UserInputMessage` rule
table). -/
structure UserInputMessage where
  content : Option String
  images : Option (List ImageBlock)
  origin : Option String
  userInputMessageContext : Option UserInputMessageContext
  userIntent : Option String

/-- The `se_UserInputMessage` (source lines 895-906). -/
def se_UserInputMessage (context : SerdeContext) (input : UserInputMessage) :
    Json :=
  .obj (takeField "content" (input.content.map .str) ++
    takeField "images" (input.images.map (se_ImageBlocks context)) ++
    takeField "origin" (input.origin.map .str) ++
    takeField "userInputMessageContext"
      (input.userInputMessageContext.map (se_UserInputMessageContext context)) ++
    takeField "userIntent" (input.userIntent.map .str))

/-- The `AssistantResponseMessage` record (fields from the
`se_AssistantResponseMessage` rule table). -/
structure AssistantResponseMessage where
  content : Option String
  followupPrompt : Option Json
  messageId : Option String
  references : Option Json
  supplementaryWebLinks : Option Json
  toolUses : Option (List ToolUse)

/-- The `se_AssistantResponseMessage` (source lines 601-613). -/
def se_AssistantResponseMessage (context : SerdeContext)
    (input : AssistantResponseMessage) : Json :=
  .obj (takeField "content" (input.content.map .str) ++
    takeField "followupPrompt" (input.followupPrompt.map _json) ++
    takeField "messageId" (input.messageId.map .str) ++
    takeField "references" (input.references.map _json) ++
    takeField "supplementaryWebLinks" (input.supplementaryWebLinks.map _json) ++
    takeField "toolUses" (input.toolUses.map (se_ToolUses context)))

/-- The `ChatMessage` union: `assistantResponseMessage` and `userInputMessage`
alternatives plus `$unknown`. -/
inductive ChatMessage where
  | assistantResponseMessage (v : AssistantResponseMessage)
  | userInputMessage (v : UserInputMessage)
  | unknown (tag : String) (value : Json)

/-- The `se_ChatMessage` (source lines 630-639): `ChatMessage.visit` with the
literal-key fallback `(name, value) => ({ name: value })`. -/
def se_ChatMessage (context : SerdeContext) : ChatMessage → Json
  | .assistantResponseMessage value =>
      .obj [("assistantResponseMessage",
        se_AssistantResponseMessage context value)]
  | .userInputMessage value =>
      .obj [("userInputMessage", se_UserInputMessage context value)]
  | .unknown _ value => .obj [("name", value)]

/-- The `se_ChatHistory` (source lines 618-625). -/
def se_ChatHistory (context : SerdeContext) (input : List ChatMessage) : Json :=
  .arr (input.map (se_ChatMessage context))

/-- The `ConversationState` record (fields from the `se_ConversationState` rule
table). -/
structure ConversationState where
  chatTriggerType : Option String
  conversationId : Option String
  currentMessage : Option ChatMessage
  customizationArn : Option String
  history : Option (List ChatMessage)

/-- The `se_ConversationState` (source lines 650-661). -/
def se_ConversationState (context : SerdeContext) (input : ConversationState) :
    Json :=
  .obj (takeField "chatTriggerType" (input.chatTriggerType.map .str) ++
    takeField "conversationId" (input.conversationId.map .str) ++
    takeField "currentMessage" (input.currentMessage.map (se_ChatMessage context)) ++
    takeField "customizationArn" (input.customizationArn.map .str) ++
    takeField "history" (input.history.map (se_ChatHistory context)))

/-- The `SendMessageRequest` record (fields from the `se_SendMessageRequest`
rule table). -/
structure SendMessageRequest where
  conversationState : Option ConversationState
  dryRun : Option Bool
  profileArn : Option String
  source : Option String

/-- The `se_SendMessageRequest` (source lines 939-949). -/
def se_SendMessageRequest (context : SerdeContext) (input : SendMessageRequest) :
    Json :=
  .obj (takeField "conversationState"
      (input.conversationState.map (se_ConversationState context)) ++
    takeField "dryRun" (input.dryRun.map .bool) ++
    takeField "profileArn" (input.profileArn.map .str) ++
    takeField "source" (input.source.map .str))

/-- The `se_SendMessageCommand` (source lines 120-128): shared headers for the
operation, the serialized request as body, and the RPC envelope at the
operation path "/". -/
def se_SendMessageCommand (input : SendMessageRequest) (context : SerdeContext) :
    HttpRequest :=
  buildHttpRpcRequest context (sharedHeaders "SendMessage") "/" none
    (some (se_SendMessageRequest context input))

/-- Modelled from the spec: the `take` helper of `@smithy/smithy-client`
(not part of this repository), the Structured-Field Projector of spec
section 4.1 — walk the field-rule table in order; for each rule whose
source value is present and non-null, emit the key with the rule's
sub-encoder applied (a `[]` pass-through rule is the identity sub-encoder).
`takeField` above is this projector unrolled at each concrete table. -/
def take (source : Json) : List (String × (Json → Json)) → List (String × Json)
  | [] => []
  | (k, f) :: rest =>
    match source.lookupField k with
    | some v =>
        if v.isNull then take source rest else (k, f v) :: take source rest
    | none => take source rest

/-- One field rule with its encode sub-encoder and the mirror decode
sub-decoder ("Decoding is the mirror ... applying the same table",
spec section 4.1). -/
structure FieldRule where
  key : String
  enc : Json → Json
  dec : Json → Json

/-- Encode side of a field-rule table. -/
def encTable (rules : List FieldRule) : List (String × (Json → Json)) :=
  rules.map fun r => (r.key, r.enc)

/-- Decode side of a field-rule table. -/
def decTable (rules : List FieldRule) : List (String × (Json → Json)) :=
  rules.map fun r => (r.key, r.dec)

/-- The `se_ToolUse` rule table in projector form, with identity
sub-encoders: `input` goes through `se_SensitiveDocument` (the identity)
and `name`/`toolUseId` are `[]` pass-throughs. -/
def toolUseTable : List (String × (Json → Json)) :=
  [("input", fun v => v), ("name", fun v => v), ("toolUseId", fun v => v)]

/-- Concrete error response: status 500, request-id header, a
`ValidationException` body. -/
def sampleErrorResponse : HttpResponse :=
  { statusCode := 500
    headers := [("x-amzn-requestid", "abc-123")]
    bodyJson := .obj [("__type", .str "ValidationException"),
                      ("message", .str "boom")]
    bodyStream := ⟨[]⟩ }

/-- Concrete parsed error output used to evaluate the dispatcher. -/
def sampleParsedOutput : ParsedOutput :=
  { statusCode := some 400
    headers := []
    body := .obj [("message", .str "x")] }

/-- An in-stream `error` event whose payload names the `ThrottlingException`
wire code. -/
def throttlingErrorFrame : Frame :=
  { name := "error"
    headers := []
    body := .obj [("__type", .str "ThrottlingException"),
                  ("message", .str "slow down")] }

/-- A message-metadata event frame. -/
def metadataFrame : Frame :=
  { name := "messageMetadataEvent"
    headers := []
    body := .obj [("conversationId", .str "conv-1")] }

/-- An assistant-text event frame. -/
def textFrame : Frame :=
  { name := "assistantResponseEvent"
    headers := []
    body := .obj [("content", .str "hello")] }

/-- A second assistant-text event frame, placed after an error frame. -/
def textFrame2 : Frame :=
  { name := "assistantResponseEvent"
    headers := []
    body := .obj [("content", .str "never seen")] }

/-- A frame whose event name is absent from every decode table. -/
def futureFrame : Frame :=
  { name := "futureEventName"
    headers := []
    body := .obj [("x", .str "y")] }

/-- Stream body `[metadataEvent, futureEventName(frame), textEvent]` from
the spec's forward-compatibility test vector. -/
def unknownEventBody : StreamBody :=
  ⟨[metadataFrame, futureFrame, textFrame]⟩

/-- Stream body `[metadataEvent, textEvent, errorEvent, textEvent2]` from
the spec's stream-termination test vector. -/
def errorStreamBody : StreamBody :=
  ⟨[metadataFrame, textFrame, throttlingErrorFrame, textFrame2]⟩

/-- A one-field source record for the projector round trip. -/
def toolUseSource : Json :=
  .obj [("name", .str "x")]

/-- A serde context whose endpoint base path ends with a separator. -/
def contextSlash : SerdeContext :=
  { endpoint := { protocol := none, hostname := "h", port := none, path := "/v1/" }
    base64Encoder := fun _ => "" }

/-- A serde context whose endpoint base path has no trailing separator. -/
def contextNoSlash : SerdeContext :=
  { endpoint := { protocol := none, hostname := "h", port := none, path := "/v1" }
    base64Encoder := fun _ => "" }

/-- Exception class carried by a chat-stream item, when the item is the
error alternative. -/
def chatErrorKind : ChatResponseStream → Option ExceptionKind
  | .error e => some e.kind
  | _ => none

/-- Exception class selected by the dispatcher, when it selected a typed
exception. -/
def commandErrorKind : CommandError → Option ExceptionKind
  | .typed e => some e.kind
  | _ => none

/-- Did the dispatcher select a typed (non-default) exception? -/
def isTypedError : CommandError → Bool
  | .typed _ => true
  | .defaultErr _ _ _ => false

/-- How many of the eight exception classes the dispatcher maps to a typed
exception when handed that class's bare wire code. -/
def recognizedKindCount (p : ParsedOutput) : Nat :=
  (allExceptionKinds.filter fun k =>
    isTypedError (dispatchErrorCode (some (bareName k)) p)).length

/-- Frame count of the stream body carried by a yielded item, when that
item is the unrecognized alternative. -/
def unknownPayloadFrameCount : Option ChatResponseStream → Option Nat
  | some (.unknown b) => some b.frames.length
  | _ => none

/-- The `se_ToolUse` rule table as encode/decode rule pairs: every
sub-encoder is the identity (`se_SensitiveDocument` and the `[]`
pass-throughs), and the spec's mirror decode table applies the identity
back. -/
def toolUseRules : List FieldRule :=
  [{ key := "input", enc := fun v => v, dec := fun v => v },
   { key := "name", enc := fun v => v, dec := fun v => v },
   { key := "toolUseId", enc := fun v => v, dec := fun v => v }]

/-! ## Helper lemmas -/

/-- Each exception class's bare wire code selects that class's typed
exception, and so does the namespace-qualified code. -/
theorem dispatch_match (k : ExceptionKind) (p : ParsedOutput) :
    dispatchErrorCode (some (bareName k)) p = .typed (de_ExceptionRes k p)
    ∧ dispatchErrorCode (some (qualName k)) p = .typed (de_ExceptionRes k p) := by
  cases k <;> exact ⟨rfl, rfl⟩

/-- A code equal to none of the sixteen `case` labels falls to the
`default` arm. -/
theorem dispatch_noMatch (c : String) (p : ParsedOutput)
    (h : ∀ k ∈ allExceptionKinds, c ≠ bareName k ∧ c ≠ qualName k) :
    dispatchErrorCode (some c) p =
      .defaultErr (some c) p.body (deserializeMetadata p) := by
  have h1 := h .accessDenied (by decide)
  have h2 := h .internalServer (by decide)
  have h3 := h .throttling (by decide)
  have h4 := h .validation (by decide)
  have h5 := h .conflict (by decide)
  have h6 := h .dryRunOperation (by decide)
  have h7 := h .resourceNotFound (by decide)
  have h8 := h .serviceQuotaExceeded (by decide)
  simp only [bareName, qualName] at h1 h2 h3 h4 h5 h6 h7 h8
  simp only [dispatchErrorCode]
  rw [if_neg (not_or.mpr h1), if_neg (not_or.mpr h2), if_neg (not_or.mpr h3),
    if_neg (not_or.mpr h4), if_neg (not_or.mpr h5), if_neg (not_or.mpr h6),
    if_neg (not_or.mpr h7), if_neg (not_or.mpr h8)]

/-- A frame named by the reserved chat error-event name decodes to the
error alternative, through the fixed internal-server decoder. -/
theorem chatStreamDeser_error (b : StreamBody) (f : Frame)
    (h : f.name = "error") :
    chatStreamDeser b f =
      ChatResponseStream.error (de_InternalServerException_event f) := by
  unfold chatStreamDeser
  rw [h]
  rfl

/-- A frame not named by the reserved error-event name never decodes to
the error alternative. -/
theorem chatStreamDeser_not_error (b : StreamBody) (f : Frame)
    (h : f.name ≠ "error") :
    (chatStreamDeser b f).isError = false := by
  unfold chatStreamDeser
  split <;> simp_all [ChatResponseStream.isError]

/-- A frame whose name is absent from the whole chat decode table falls
through to the unrecognized fallback, which captures the stream body. -/
theorem chatStreamDeser_unknown (b : StreamBody) (f : Frame)
    (h : f.name ∉ chatEventNames) :
    chatStreamDeser b f = ChatResponseStream.unknown b := by
  simp only [chatEventNames, List.mem_cons, List.not_mem_nil, or_false,
    not_or] at h
  unfold chatStreamDeser
  split <;> simp_all

/-- The marshaller loop maps error-free prefixes pointwise. -/
theorem demuxChatGo_no_error (b : StreamBody) (pre rest : List Frame)
    (hpre : ∀ g ∈ pre, g.name ≠ "error") :
    demuxChatGo b (pre ++ rest) =
      pre.map (chatStreamDeser b) ++ demuxChatGo b rest := by
  induction pre with
  | nil => rfl
  | cons g pre ih =>
    have hg : g.name ≠ "error" := hpre g (List.mem_cons_self g pre)
    have hrest : ∀ g2 ∈ pre, g2.name ≠ "error" :=
      fun g2 hg2 => hpre g2 (List.mem_cons_of_mem g hg2)
    simp only [List.cons_append, demuxChatGo,
      chatStreamDeser_not_error b g hg, List.map_cons,
      Bool.false_eq_true, if_false, List.append_eq, ih hrest]

/-- A key bound by no rule is absent from the projector's output. -/
theorem alookup_take_of_not_mem (src : Json)
    (ins : List (String × (Json → Json))) (k : String)
    (h : ∀ p ∈ ins, p.1 ≠ k) :
    alookup k (take src ins) = none := by
  induction ins with
  | nil => rfl
  | cons hd tl ih =>
    obtain ⟨k2, f⟩ := hd
    have hk2 : k2 ≠ k := h (k2, f) (List.mem_cons_self _ _)
    have htl : ∀ p ∈ tl, p.1 ≠ k :=
      fun p hp => h p (List.mem_cons_of_mem _ hp)
    unfold take
    cases hsrc : src.lookupField k2 with
    | none => exact ih htl
    | some v =>
      cases hnull : v.isNull with
      | true => simpa [hnull] using ih htl
      | false => simpa [hnull, alookup, hk2] using ih htl

/-- The projector's output at a rule's key: the source value, filtered
for null, with the rule's sub-encoder applied (rule keys distinct). -/
theorem alookup_take_of_mem (src : Json)
    (ins : List (String × (Json → Json))) (k : String) (f : Json → Json)
    (hn : (ins.map Prod.fst).Nodup) (hmem : (k, f) ∈ ins) :
    alookup k (take src ins) =
      (src.lookupField k).bind fun v =>
        if v.isNull then none else some (f v) := by
  induction ins with
  | nil => exact absurd hmem (List.not_mem_nil _)
  | cons hd tl ih =>
    obtain ⟨k2, f2⟩ := hd
    rw [List.map_cons, List.nodup_cons] at hn
    rcases List.mem_cons.mp hmem with heq | hmemtl
    · injection heq with hk hf
      subst hk
      subst hf
      have hnot : ∀ p ∈ tl, p.1 ≠ k := by
        intro p hp hpk
        exact hn.1 (List.mem_map.mpr ⟨p, hp, hpk⟩)
      unfold take
      cases hsrc : src.lookupField k with
      | none => simpa using alookup_take_of_not_mem src tl k hnot
      | some v =>
        cases hnull : v.isNull with
        | true => simpa [hnull] using alookup_take_of_not_mem src tl k hnot
        | false => simp [hnull, alookup]
    · have hk2 : k2 ≠ k := by
        intro hh
        apply hn.1
        rw [hh]
        exact List.mem_map.mpr ⟨(k, f), hmemtl, rfl⟩
      unfold take
      cases hsrc : src.lookupField k2 with
      | none => exact ih hn.2 hmemtl
      | some v =>
        cases hnull : v.isNull with
        | true => simpa [hnull] using ih hn.2 hmemtl
        | false => simpa [hnull, alookup, hk2] using ih hn.2 hmemtl

/-- Projecting with a table's encode side and then with its mirror decode
side restores the source at every rule key, provided each rule's decoder
inverts its encoder on the values present. -/
theorem take_unproject_roundtrip (rules : List FieldRule) (src : Json)
    (hn : (rules.map FieldRule.key).Nodup)
    (hr : ∀ r ∈ rules, ∀ v, src.lookupField r.key = some v →
      r.dec (r.enc v) = v ∧ (r.enc v).isNull = false ∧ v.isNull = false) :
    ∀ r ∈ rules,
      (Json.obj (take (Json.obj (take src (encTable rules)))
        (decTable rules))).lookupField r.key = src.lookupField r.key := by
  intro r hrm
  have hkeysE : (encTable rules).map Prod.fst = rules.map FieldRule.key := by
    simp [encTable]
  have hkeysD : (decTable rules).map Prod.fst = rules.map FieldRule.key := by
    simp [decTable]
  have hnE : ((encTable rules).map Prod.fst).Nodup := by
    rw [hkeysE]; exact hn
  have hnD : ((decTable rules).map Prod.fst).Nodup := by
    rw [hkeysD]; exact hn
  have hmemE : (r.key, r.enc) ∈ encTable rules :=
    List.mem_map.mpr ⟨r, hrm, rfl⟩
  have hmemD : (r.key, r.dec) ∈ decTable rules :=
    List.mem_map.mpr ⟨r, hrm, rfl⟩
  have houter := alookup_take_of_mem (Json.obj (take src (encTable rules)))
    (decTable rules) r.key r.dec hnD hmemD
  have hinner := alookup_take_of_mem src (encTable rules) r.key r.enc hnE hmemE
  show alookup r.key
      (take (Json.obj (take src (encTable rules))) (decTable rules)) =
    src.lookupField r.key
  rw [houter]
  have hwire : (Json.obj (take src (encTable rules))).lookupField r.key =
      alookup r.key (take src (encTable rules)) := rfl
  rw [hwire, hinner]
  cases hsrc : src.lookupField r.key with
  | none => rfl
  | some v =>
    obtain ⟨hdec, hencn, hvn⟩ := hr r hrm v hsrc
    simp [hvn, hencn, hdec]

/-! ## Claim theorems -/

/-- C1: for every HTTP response with status code at least 300,
deserialization of either operation fails with the result of the error
dispatcher and never returns normally; the dispatcher extracts and
normalizes the wire error code (`loadRestJsonErrorCode`) and matches it
case-sensitively against the bare and the
`com.amazon.aws.codewhisperer#`-qualified form of each known exception
name, failing with that typed exception kind carrying the response
`Metadata` on a match, and with the generic default exception carrying the
raw code and body on no match. -/
theorem C1_top_level_error_dispatch :
    ∀ output : HttpResponse, output.statusCode ≥ 300 →
      (de_SendMessageCommand output = Except.error (de_CommandError output)
        ∧ de_GenerateCodeFromCommandsCommand output =
            Except.error (de_CommandError output))
      ∧ de_CommandError output =
          dispatchErrorCode
            (loadRestJsonErrorCode output.headers output.bodyJson)
            output.parsed
      ∧ (∀ k : ExceptionKind, ∀ c : String,
          loadRestJsonErrorCode output.headers output.bodyJson = some c →
          c = bareName k ∨ c = qualName k →
          de_CommandError output =
            CommandError.typed
              { kind := k
                metadata := deserializeMetadata output.parsed
                fields := _json output.bodyJson })
      ∧ (∀ c : String,
          loadRestJsonErrorCode output.headers output.bodyJson = some c →
          (∀ k ∈ allExceptionKinds, c ≠ bareName k ∧ c ≠ qualName k) →
          de_CommandError output =
            CommandError.defaultErr (some c) output.bodyJson
              (deserializeMetadata output.parsed))
      ∧ (loadRestJsonErrorCode output.headers output.bodyJson = none →
          de_CommandError output =
            CommandError.defaultErr none output.bodyJson
              (deserializeMetadata output.parsed)) := by
  intro output hstatus
  refine ⟨⟨?_, ?_⟩, rfl, ?_, ?_, ?_⟩
  · unfold de_SendMessageCommand
    rw [if_pos hstatus]
  · unfold de_GenerateCodeFromCommandsCommand
    rw [if_pos hstatus]
  · intro k c hc hck
    unfold de_CommandError
    rw [hc]
    have hmatch := dispatch_match k output.parsed
    rcases hck with rfl | rfl
    · rw [hmatch.1]; cases k <;> rfl
    · rw [hmatch.2]; cases k <;> rfl
  · intro c hc hk
    unfold de_CommandError
    rw [hc]
    exact dispatch_noMatch c output.parsed hk
  · intro hc
    unfold de_CommandError
    rw [hc]
    rfl

/-- Witness for C1 at a concrete 500 response carrying a
`ValidationException` body: the call fails with the typed validation
exception. -/
theorem C1_witness :
    de_SendMessageCommand sampleErrorResponse =
        Except.error (de_CommandError sampleErrorResponse)
      ∧ de_CommandError sampleErrorResponse =
          CommandError.typed
            { kind := .validation
              metadata := deserializeMetadata sampleErrorResponse.parsed
              fields := _json sampleErrorResponse.bodyJson } := by
  have h := C1_top_level_error_dispatch sampleErrorResponse (by decide)
  exact ⟨h.1.1, h.2.2.1 .validation "ValidationException" rfl (Or.inl rfl)⟩

/-- C3 counterexample: the dispatcher recognizes eight, not seven,
exception kinds — each of the eight classes is selected (as a typed,
non-default exception) by its own distinct bare wire code. -/
theorem C3_counterexample :
    recognizedKindCount sampleParsedOutput = 8
      ∧ (allExceptionKinds.map bareName).Nodup
      ∧ allExceptionKinds.length = 8
      ∧ (8 : Nat) ≠ 7 := by
  refine ⟨rfl, by decide, rfl, by decide⟩

/-- C3 (amended): the top-level error dispatcher recognizes exactly 8
named exception kinds for this operation set; every wire error code
outside this fixed, design-time-closed set is mapped to the generic
default exception. -/
theorem C3_eight_recognized_kinds :
    ∀ p : ParsedOutput,
      recognizedKindCount p = 8
      ∧ (∀ k ∈ allExceptionKinds,
          dispatchErrorCode (some (bareName k)) p =
              .typed (de_ExceptionRes k p)
            ∧ dispatchErrorCode (some (qualName k)) p =
              .typed (de_ExceptionRes k p))
      ∧ (∀ c : String,
          (∀ k ∈ allExceptionKinds, c ≠ bareName k ∧ c ≠ qualName k) →
          dispatchErrorCode (some c) p =
            .defaultErr (some c) p.body (deserializeMetadata p)) := by
  intro p
  refine ⟨rfl, fun k _ => dispatch_match k p, fun c hk => dispatch_noMatch c p hk⟩

/-- Witness for C3's amended statement: a code outside the known set falls
to the generic default exception. -/
theorem C3_witness :
    dispatchErrorCode (some "TotallyNovelException") sampleParsedOutput =
      CommandError.defaultErr (some "TotallyNovelException")
        sampleParsedOutput.body (deserializeMetadata sampleParsedOutput) :=
  (C3_eight_recognized_kinds sampleParsedOutput).2.2 "TotallyNovelException"
    (by decide)

/-- C2 counterexample: the in-stream decoder does not re-run the
top-level error-code matching on the event payload.  For an `error` event
whose payload names the `ThrottlingException` wire code, the demultiplexer
produces the internal-server exception kind, while the top-level matching
logic applied to the same payload selects the throttling kind. -/
theorem C2_counterexample :
    chatErrorKind
        (chatStreamDeser (StreamBody.mk [throttlingErrorFrame])
          throttlingErrorFrame) =
        some ExceptionKind.internalServer
      ∧ commandErrorKind
          (dispatchErrorCode
            (loadRestJsonErrorCode throttlingErrorFrame.headers
              throttlingErrorFrame.body)
            (frameParsed throttlingErrorFrame)) =
        some ExceptionKind.throttling
      ∧ ExceptionKind.internalServer ≠ ExceptionKind.throttling :=
  ⟨rfl, rfl, by decide⟩

/-- C2 (amended): every in-stream error event is decoded through a fixed
exception kind determined by the event name alone — `error` and `Error`
yield the internal-server kind, `QuotaLevelExceededError` the
service-quota kind, `ValidationError` the validation kind — regardless of
the wire error code in the payload, and the result is wrapped as the error
alternative of the event variant rather than raised out of band. -/
theorem C2_in_stream_error_fixed_kind :
    ∀ (output : StreamBody) (f : Frame),
      (f.name = "error" →
        chatStreamDeser output f =
            ChatResponseStream.error (de_InternalServerException_event f)
          ∧ (de_InternalServerException_event f).kind = .internalServer)
      ∧ (f.name = "Error" →
        genStreamDeser output f =
            GenerateCodeFromCommandsResponseStream.Error
              (de_InternalServerException_event f)
          ∧ (de_InternalServerException_event f).kind = .internalServer)
      ∧ (f.name = "QuotaLevelExceededError" →
        genStreamDeser output f =
            GenerateCodeFromCommandsResponseStream.QuotaLevelExceededError
              (de_ServiceQuotaExceededException_event f)
          ∧ (de_ServiceQuotaExceededException_event f).kind =
              .serviceQuotaExceeded)
      ∧ (f.name = "ValidationError" →
        genStreamDeser output f =
            GenerateCodeFromCommandsResponseStream.ValidationError
              (de_ValidationException_event f)
          ∧ (de_ValidationException_event f).kind = .validation) := by
  intro output f
  refine ⟨fun h => ⟨?_, rfl⟩, fun h => ⟨?_, rfl⟩, fun h => ⟨?_, rfl⟩,
    fun h => ⟨?_, rfl⟩⟩
  · unfold chatStreamDeser; rw [h]; rfl
  · unfold genStreamDeser; rw [h]; rfl
  · unfold genStreamDeser; rw [h]; rfl
  · unfold genStreamDeser; rw [h]; rfl

/-- Witness for C2's amended statement at the concrete `error` event. -/
theorem C2_witness :
    chatStreamDeser (StreamBody.mk [throttlingErrorFrame])
        throttlingErrorFrame =
        ChatResponseStream.error
          (de_InternalServerException_event throttlingErrorFrame)
      ∧ (de_InternalServerException_event throttlingErrorFrame).kind =
        ExceptionKind.internalServer :=
  (C2_in_stream_error_fixed_kind (StreamBody.mk [throttlingErrorFrame])
      throttlingErrorFrame).1 rfl

/-- C4 counterexample: the unrecognized alternative yielded for an
unknown-named frame carries the captured whole stream body (three frames
here), not the single raw frame the claim describes. -/
theorem C4_counterexample :
    (de_ChatResponseStream unknownEventBody)[1]? =
        some (ChatResponseStream.unknown unknownEventBody)
      ∧ unknownPayloadFrameCount
          ((de_ChatResponseStream unknownEventBody)[1]?) = some 3
      ∧ [futureFrame].length = 1
      ∧ some (3 : Nat) ≠ some 1 :=
  ⟨rfl, rfl, rfl, by decide⟩

/-- C4 (amended): for every frame whose event name is absent from the
operation's decode table (including the reserved error-event name), the
demultiplexer yields the unrecognized (`$unknown`) alternative — carrying
the raw stream body captured by the deserializer closure, not the
individual frame — and iteration continues with the subsequent frames. -/
theorem C4_unknown_event_continues :
    ∀ (output : StreamBody) (pre : List Frame) (f : Frame) (post : List Frame),
      output.frames = pre ++ f :: post →
      (∀ g ∈ pre, g.name ≠ "error") →
      f.name ∉ chatEventNames →
      de_ChatResponseStream output =
        pre.map (chatStreamDeser output)
          ++ ChatResponseStream.unknown output :: demuxChatGo output post := by
  intro output pre f post hframes hpre hf
  unfold de_ChatResponseStream
  rw [hframes, demuxChatGo_no_error output pre (f :: post) hpre]
  have hunk := chatStreamDeser_unknown output f hf
  simp only [demuxChatGo, hunk, ChatResponseStream.isError,
    Bool.false_eq_true, if_false]

/-- Witness for C4's amended statement at the spec's forward-compatibility
vector: the unknown middle frame yields the unrecognized alternative and
the trailing text event is still decoded. -/
theorem C4_witness :
    de_ChatResponseStream unknownEventBody =
      [chatStreamDeser unknownEventBody metadataFrame,
       ChatResponseStream.unknown unknownEventBody,
       chatStreamDeser unknownEventBody textFrame] := by
  have h := C4_unknown_event_continues unknownEventBody [metadataFrame]
    futureFrame [textFrame] rfl (by decide) (by decide)
  rw [h]
  rfl

/-- C5: for every frame sequence containing a reserved error-event frame
(after an error-free prefix), the demultiplexed sequence ends at that
error: the decoded error is the final yielded item and nothing after it is
read or yielded. -/
theorem C5_stream_terminates_on_error :
    ∀ (output : StreamBody) (pre : List Frame) (f : Frame) (post : List Frame),
      output.frames = pre ++ f :: post →
      (∀ g ∈ pre, g.name ≠ "error") →
      f.name = "error" →
      de_ChatResponseStream output =
        pre.map (chatStreamDeser output)
          ++ [ChatResponseStream.error (de_InternalServerException_event f)] := by
  intro output pre f post hframes hpre hf
  unfold de_ChatResponseStream
  rw [hframes, demuxChatGo_no_error output pre (f :: post) hpre]
  have herr := chatStreamDeser_error output f hf
  simp only [demuxChatGo, herr, ChatResponseStream.isError, if_true]

/-- Witness for C5 at the spec's termination vector
`[metadataEvent, textEvent, errorEvent, textEvent2]`: three items come
out and `textEvent2` is never yielded. -/
theorem C5_witness :
    de_ChatResponseStream errorStreamBody =
        [chatStreamDeser errorStreamBody metadataFrame,
         chatStreamDeser errorStreamBody textFrame,
         ChatResponseStream.error
           (de_InternalServerException_event throttlingErrorFrame)]
      ∧ (de_ChatResponseStream errorStreamBody).length = 3 := by
  have h := C5_stream_terminates_on_error errorStreamBody
    [metadataFrame, textFrame] throttlingErrorFrame [textFrame2] rfl
    (by decide) rfl
  exact ⟨by rw [h]; rfl, by rw [h]; rfl⟩

/-- C6: for every field-rule table whose sub-decoders invert their
sub-encoders on the (present, non-null) field values, decoding the
encoding of a record restores the record on every field covered by the
rules, for all combinations of fields present or absent; in particular the
`se_ToolUse` table (identity sub-encoders) round-trips every covered
field.  Fields not covered by the rules are lossy by design and are not
constrained. -/
theorem C6_round_trip :
    (∀ (rules : List FieldRule) (src : Json),
      (rules.map FieldRule.key).Nodup →
      (∀ r ∈ rules, ∀ v, src.lookupField r.key = some v →
        r.dec (r.enc v) = v ∧ (r.enc v).isNull = false ∧ v.isNull = false) →
      ∀ r ∈ rules,
        (Json.obj (take (Json.obj (take src (encTable rules)))
          (decTable rules))).lookupField r.key = src.lookupField r.key)
    ∧ (∀ src : Json,
      (∀ k v, src.lookupField k = some v → v.isNull = false) →
      ∀ k ∈ ["input", "name", "toolUseId"],
        (Json.obj (take (Json.obj (take src toolUseTable))
          toolUseTable)).lookupField k = src.lookupField k) := by
  refine ⟨take_unproject_roundtrip, ?_⟩
  intro src hsrc k hk
  have hr : ∀ r ∈ toolUseRules, ∀ v, src.lookupField r.key = some v →
      r.dec (r.enc v) = v ∧ (r.enc v).isNull = false ∧ v.isNull = false := by
    intro r hrm v hv
    simp only [toolUseRules, List.mem_cons, List.not_mem_nil,
      or_false] at hrm
    rcases hrm with rfl | rfl | rfl <;>
      exact ⟨rfl, hsrc _ v hv, hsrc _ v hv⟩
  have hn : (toolUseRules.map FieldRule.key).Nodup := by
    simp [toolUseRules]
  have hmem : ({ key := k, enc := fun v => v, dec := fun v => v } :
      FieldRule) ∈ toolUseRules := by
    simp only [List.mem_cons, List.mem_singleton, List.not_mem_nil,
      or_false] at hk
    rcases hk with rfl | rfl | rfl
    · exact List.mem_cons_self _ _
    · exact List.mem_cons_of_mem _ (List.mem_cons_self _ _)
    · exact List.mem_cons_of_mem _ (List.mem_cons_of_mem _
        (List.mem_cons_self _ _))
  exact take_unproject_roundtrip toolUseRules src hn hr _ hmem

/-- Witness for C6 at a concrete one-field record through the
`se_ToolUse` table. -/
theorem C6_witness :
    (Json.obj (take (Json.obj (take toolUseSource toolUseTable))
      toolUseTable)).lookupField "name" = some (Json.str "x") := by
  have hsrc : ∀ k v, toolUseSource.lookupField k = some v →
      v.isNull = false := by
    intro k v hv
    simp only [toolUseSource, Json.lookupField, alookup] at hv
    split at hv
    · cases hv; rfl
    · cases hv
  have h := C6_round_trip.2 toolUseSource hsrc "name" (by simp)
  rw [h]
  rfl

/-- C7: for every endpoint base path and operation path, the request
envelope builder produces a POST request whose path is the concatenation
of base path and path with the duplicate separator stripped when the base
path ends with the separator, attaching the body only when one is
provided; in particular base paths "/v1/" and "/v1" both join with
"/chat" to "/v1/chat". -/
theorem C7_request_envelope :
    (∀ (context : SerdeContext) (headers : Headers) (path : String)
        (resolvedHostname : Option String) (body : Option Json),
      (buildHttpRpcRequest context headers path resolvedHostname body).method
          = "POST"
        ∧ (buildHttpRpcRequest context headers path resolvedHostname
            body).path =
          (if endsWithSlash context.endpoint.path then
            context.endpoint.path.dropRight 1
          else context.endpoint.path) ++ path
        ∧ (buildHttpRpcRequest context headers path resolvedHostname
            body).body = body)
    ∧ (buildHttpRpcRequest contextSlash [] "/chat" none none).path
        = "/v1/chat"
    ∧ (buildHttpRpcRequest contextNoSlash [] "/chat" none none).path
        = "/v1/chat" := by
  refine ⟨fun context headers path resolvedHostname body =>
    ⟨rfl, ?_, rfl⟩, rfl, rfl⟩
  by_cases h : endsWithSlash context.endpoint.path
  · simp [buildHttpRpcRequest, h]
  · simp [buildHttpRpcRequest, h]

/-- C8: for every HTTP response, the metadata extractor yields the
response status code, the request id from the first present of
`x-amzn-requestid`, `x-amzn-request-id`, `x-amz-request-id` (in that
order), the extended request id from `x-amz-id-2`, and the CloudFront id
from `x-amz-cf-id`. -/
theorem C8_metadata_extraction :
    ∀ output : HttpResponse,
      (deserializeMetadata output.parsed).httpStatusCode =
          some output.statusCode
        ∧ (deserializeMetadata output.parsed).extendedRequestId =
          alookup "x-amz-id-2" output.headers
        ∧ (deserializeMetadata output.parsed).cfId =
          alookup "x-amz-cf-id" output.headers
        ∧ (∀ v, alookup "x-amzn-requestid" output.headers = some v →
          (deserializeMetadata output.parsed).requestId = some v)
        ∧ (alookup "x-amzn-requestid" output.headers = none →
          ∀ v, alookup "x-amzn-request-id" output.headers = some v →
          (deserializeMetadata output.parsed).requestId = some v)
        ∧ (alookup "x-amzn-requestid" output.headers = none →
          alookup "x-amzn-request-id" output.headers = none →
          (deserializeMetadata output.parsed).requestId =
            alookup "x-amz-request-id" output.headers) := by
  intro output
  refine ⟨rfl, rfl, rfl, ?_, ?_, ?_⟩
  · intro v hv
    simp [deserializeMetadata, HttpResponse.parsed, hv, Option.orElse]
  · intro h1 v hv
    simp [deserializeMetadata, HttpResponse.parsed, h1, hv, Option.orElse]
  · intro h1 h2
    simp [deserializeMetadata, HttpResponse.parsed, h1, h2, Option.orElse]

/-- Witness for C8 at the concrete 500 response carrying
`x-amzn-requestid: abc-123`. -/
theorem C8_witness :
    (deserializeMetadata sampleErrorResponse.parsed).requestId =
        some "abc-123"
      ∧ (deserializeMetadata sampleErrorResponse.parsed).httpStatusCode =
        some 500 :=
  ⟨(C8_metadata_extraction sampleErrorResponse).2.2.2.1 "abc-123" rfl,
   (C8_metadata_extraction sampleErrorResponse).1⟩

/-- C9: the scalar/binary codec base64-encodes raw-bytes fields on the
wire (the `bytes` alternative of `ImageSource` goes through the context's
base64 encoder) and passes opaque "document" fields through encode
untouched (`se_SensitiveDocument` is the identity). -/
theorem C9_binary_and_document_codec :
    ∀ (context : SerdeContext) (b : Bytes) (d : Json),
      se_ImageSource context (ImageSource.bytes b) =
          Json.obj [("bytes", Json.str (context.base64Encoder b))]
        ∧ se_SensitiveDocument context d = d :=
  fun _ _ _ => ⟨rfl, rfl⟩

/-- C10: on the visitor's fallback case (a populated alternative outside
the known set), `se_ChatMessage`, `se_ImageSource`, `se_Tool` and
`se_ToolResultContentBlock` all produce a wire object whose single key is
the literal string "name" mapped to the payload value — the actual tag
name does not appear. -/
theorem C10_unknown_variant_literal_name_key :
    ∀ (context : SerdeContext) (tag : String) (value : Json),
      se_ChatMessage context (ChatMessage.unknown tag value) =
          Json.obj [("name", value)]
        ∧ se_ImageSource context (ImageSource.unknown tag value) =
          Json.obj [("name", value)]
        ∧ se_Tool context (Tool.unknown tag value) =
          Json.obj [("name", value)]
        ∧ se_ToolResultContentBlock context
            (ToolResultContentBlock.unknown tag value) =
          Json.obj [("name", value)] :=
  fun _ _ _ => ⟨rfl, rfl, rfl, rfl⟩

end AwsJson10
